import Mathlib

/-!
Verification of scripts/make-index.py from the openslide-builds repository.

The script is a single linear procedure: load a JSON record list, optionally
append a new build record from command-line arguments, prune expired releases
through the GitHub REST API, fetch builder container image metadata, render an
HTML index from a Jinja2 template, and persist the record list back to JSON.

The embedding below translates that procedure into pure Lean functions.
External effects are made explicit:
  - the JSON state file is a `FileRead` value (`missing` models the IOError
    branch of the `try/except` around `open`);
  - `dateutil.parser.parse(...).date().isoformat()` is an oracle function
    `parseDate` (an external library call, opaque to the script);
  - the GitHub API is a pair of oracles (`PruneApi`, `ContainerApi`), and
    every HTTP request issued is collected in a `Request` log;
  - `datetime.now().timestamp()` is an oracle value `now`;
  - exceptions (`parser.error`, `raise_for_status`) become `Except ProgError`.

String operations mirror Python semantics: `pySplit` is `str.split` with an
explicit separator, `pyTake` is the slice `s[:n]`, `pyTruthy` is Python
truthiness of an optional string (None and the empty string are falsy).
Whitespace emitted by the Jinja2 engine between tags is abbreviated in the
rendered strings; the rendered tokens and their order follow the template.
-/

/-- Python `str.split(sep)` on a character list: splits at every occurrence
of `sep`, keeping empty components, and yields one component even for the
empty input, exactly like `"".split(sep) == ['']` in Python. -/
def splitChar (sep : Char) : List Char → List (List Char)
  | [] => [[]]
  | c :: cs =>
    let r := splitChar sep cs
    if c = sep then [] :: r
    else
      match r with
      | [] => [[c]]
      | h :: t => (c :: h) :: t

/-- Python `s.split(sep)` for a single-character separator. -/
def pySplit (s : String) (sep : Char) : List String :=
  (splitChar sep s.data).map (fun l => String.mk l)

/-- Python slice `s[:n]`. -/
def pyTake (s : String) (n : Nat) : String :=
  String.mk (s.data.take n)

/-- Python truthiness of an `Optional[str]`: `None` and `''` are falsy. -/
def pyTruthy : Option String → Bool
  | none => false
  | some s => !s.data.isEmpty

/-- Python dict lookup for a dict built by repeated assignment in insertion
order: a later assignment to the same key overwrites an earlier one. -/
def lookupDict (l : List (String × String)) (k : String) : Option String :=
  (l.reverse.find? (fun p => p.1 = k)).map (fun p => p.2)

-- Constants of the script (make-index.py lines 31-35).

def REPO : String := "openslide/builds"

def CONTAINERS : List String := ["openslide/linux-builder", "openslide/winbuild-builder"]

def RETAIN : Nat := 30

/-- One build record of the JSON state file. The keys of the Python dict
built at lines 187-196 become fields; `win32` models `record.get('win32',
False)` (line 253), defaulting to `false` for newly appended records, which
do not carry the key. -/
structure Record where
  pkgver : String
  date : String
  linux_builder : String
  windows_builder : String
  openslide : String
  openslide_java : String
  openslide_winbuild : String
  win32 : Bool := false
deriving DecidableEq

/-- The optional command-line arguments of the script (lines 156-168);
argparse yields `None` for an absent flag. `--dir` only selects file paths
and is not modelled. -/
structure Args where
  pkgver : Option String
  linux_builder : Option String
  windows_builder : Option String
  openslide : Option String
  java : Option String
  winbuild : Option String
deriving DecidableEq

/-- State of the JSON state file when the script opens it: `missing` is the
IOError branch of the `try/except` (lines 174-178), `present builds` is a
readable file whose parsed `builds` key holds the given records. -/
inductive FileRead where
  | missing
  | present (builds : List Record)
deriving DecidableEq

/-- Loading the records (lines 173-178): a missing file yields the empty
list, otherwise the stored list in stored order. -/
def loadRecords : FileRead → List Record
  | .missing => []
  | .present builds => builds

/-- Errors the script can raise: `argError` is `parser.error` (SystemExit),
`httpError c` is `requests.raise_for_status` on status code `c`. -/
inductive ProgError where
  | argError
  | httpError (code : Nat)
deriving DecidableEq

/-- The append step (lines 180-196): if `args.pkgver` is truthy, require all
five companion arguments truthy (else `parser.error`) and append one record
at the end; otherwise leave the list unchanged. -/
def appendStep (parseDate : String → String) (args : Args) (records : List Record) :
    Except ProgError (List Record) :=
  if pyTruthy args.pkgver then
    if !pyTruthy args.linux_builder || !pyTruthy args.windows_builder ||
       !pyTruthy args.openslide || !pyTruthy args.java || !pyTruthy args.winbuild then
      .error .argError
    else
      .ok (records ++ [{
        pkgver := args.pkgver.getD "",
        date := parseDate ((pySplit (args.pkgver.getD "") '-').getD 0 ""),
        linux_builder := args.linux_builder.getD "",
        windows_builder := args.windows_builder.getD "",
        openslide := args.openslide.getD "",
        openslide_java := args.java.getD "",
        openslide_winbuild := args.winbuild.getD "" }])
  else
    .ok records

/-- Python `records[:-RETAIN]`: every record except the newest `RETAIN`;
empty when the list has at most `RETAIN` entries. These are the expired
records walked by the prune loop (line 203). -/
def expiredOf (l : List Record) : List Record :=
  l.take (l.length - RETAIN)

/-- Python `records[-RETAIN:]`: the newest `RETAIN` records (the whole list
when it has at most `RETAIN` entries); the truncation at line 218. -/
def retainedOf (l : List Record) : List Record :=
  l.drop (l.length - RETAIN)

/-- The release tag queried for a record (line 206). -/
def tagOf (r : Record) : String :=
  "windows-" ++ r.pkgver

/-- One HTTP request issued by the script, in issue order. -/
inductive Request where
  | getReleaseByTag (tag : String)
  | deleteRelease (id : Nat)
  | listPackageVersions (org name : String)
deriving DecidableEq

/-- Outcome of `GET /repos/REPO/releases/tags/...` as the script observes it
(lines 205-213): status 404, a success whose JSON carries the release id, or
an error status on which `raise_for_status` raises. -/
inductive GetReleaseResult where
  | notFound
  | found (id : Nat)
  | httpError (code : Nat)
deriving DecidableEq

/-- Oracle for the two remote calls of the prune loop: the release lookup by
tag and the status code answered to the release deletion. -/
structure PruneApi where
  getRelease : String → GetReleaseResult
  deleteStatus : Nat → Nat

/-- `raise_for_status` raises exactly for client and server error statuses
(4xx and 5xx). -/
def isErrorStatus (s : Nat) : Bool :=
  400 ≤ s

/-- The prune loop (lines 203-217) over the expired records: look up the
release tagged with the record package version; on 404 skip to the next
record; on an error status raise; otherwise delete the release and raise if
the deletion answers an error status. Returns the issued requests and either
success or the first raised error. -/
def pruneLoop (api : PruneApi) : List Record → List Request × Except ProgError Unit
  | [] => ([], .ok ())
  | r :: rest =>
    match api.getRelease (tagOf r) with
    | .notFound =>
      let p := pruneLoop api rest
      (.getReleaseByTag (tagOf r) :: p.1, p.2)
    | .httpError c => ([.getReleaseByTag (tagOf r)], .error (.httpError c))
    | .found id =>
      if isErrorStatus (api.deleteStatus id) then
        ([.getReleaseByTag (tagOf r), .deleteRelease id],
         .error (.httpError (api.deleteStatus id)))
      else
        let p := pruneLoop api rest
        (.getReleaseByTag (tagOf r) :: .deleteRelease id :: p.1, p.2)

/-- Oracle for `GET /orgs/.../packages/container/.../versions?per_page=100`:
the status code and, on success, the listed images as (name, html_url). -/
structure ContainerApi where
  listVersions : String → String → Nat × List (String × String)

/-- The container image metadata fetch (lines 220-231): for each configured
container, list its package versions, raise on an error status, and record
`ghcr.io/org/name@imagename -> html_url` entries in order. -/
def containerStep (api : ContainerApi) :
    List String → List Request × Except ProgError (List (String × String))
  | [] => ([], .ok [])
  | c :: rest =>
    let org := (pySplit c '/').getD 0 ""
    let nm := (pySplit c '/').getD 1 ""
    let r := api.listVersions org nm
    if isErrorStatus r.1 then
      ([.listPackageVersions org nm], .error (.httpError r.1))
    else
      let entries := r.2.map (fun im =>
        ("ghcr.io/" ++ org ++ "/" ++ nm ++ "@" ++ im.1, im.2))
      match containerStep api rest with
      | (log, .error e) => (.listPackageVersions org nm :: log, .error e)
      | (log, .ok tl) => (.listPackageVersions org nm :: log, .ok (entries ++ tl))

/-- One row of the HTML table (the dict built at lines 242-254). -/
structure Row where
  date : String
  pkgver : String
  linux_builder : String
  windows_builder : String
  openslide_prev : Option String
  openslide_cur : String
  java_prev : Option String
  java_cur : String
  winbuild_prev : Option String
  winbuild_cur : String
  win32 : Bool
deriving DecidableEq

/-- The inner helper `prev(key)` (lines 237-241): the previous record value
when a previous record exists and its value differs, otherwise None. -/
def prevField (prev : Option Record) (f : Record → String) (cur : Record) : Option String :=
  match prev with
  | none => none
  | some p => if f cur ≠ f p then some (f p) else none

/-- The row built for one record given the previous record (lines 242-254). -/
def mkRow (prev : Option Record) (r : Record) : Row :=
  { date := r.date,
    pkgver := r.pkgver,
    linux_builder := r.linux_builder,
    windows_builder := r.windows_builder,
    openslide_prev := prevField prev (fun x => x.openslide) r,
    openslide_cur := r.openslide,
    java_prev := prevField prev (fun x => x.openslide_java) r,
    java_cur := r.openslide_java,
    winbuild_prev := prevField prev (fun x => x.openslide_winbuild) r,
    winbuild_cur := r.openslide_winbuild,
    win32 := r.win32 }

/-- The row-building loop (lines 234-255), carrying `prev_record`. -/
def makeRowsAux (prev : Option Record) : List Record → List Row
  | [] => []
  | r :: rest => mkRow prev r :: makeRowsAux (some r) rest

/-- Rows for the HTML template, in record-list order (`prev_record` starts
as None). -/
def makeRows (records : List Record) : List Row :=
  makeRowsAux none records

-- Rendering (the Jinja2 template at lines 37-148, evaluated as main does at
-- lines 257-264).

/-- The constant prolog of the template before the row loop: doctype, style
sheet, title, heading, the explanatory paragraph with the retention count
interpolated, and the table header row. -/
def pageHeader (retain : Nat) : String :=
  "<!doctype html>\n" ++
  "<style type=\"text/css\">\n" ++
  "  table \x7b\n    margin-left: 20px;\n    border-collapse: collapse;\n  \x7d\n" ++
  "  th.repo \x7b\n    padding-right: 1em;\n  \x7d\n" ++
  "  td \x7b\n    padding-right: 20px;\n  \x7d\n" ++
  "  td.date \x7b\n    padding-left: 5px;\n  \x7d\n" ++
  "  td.revision \x7b\n    font-family: monospace;\n  \x7d\n" ++
  "  td.spacer \x7b\n    padding-right: 25px;\n  \x7d\n" ++
  "  td.win64 \x7b\n    padding-right: 5px;\n  \x7d\n" ++
  "  tr \x7b\n    height: 2em;\n  \x7d\n" ++
  "  tr:nth-child(2n) \x7b\n    background-color: #e8e8e8;\n  \x7d\n" ++
  "</style>\n" ++
  "<title>OpenSlide development builds</title>\n" ++
  "<h1>OpenSlide development builds</h1>\n" ++
  "<p>Here are the " ++ toString retain ++ " newest successful nightly builds.\n" ++
  "Older builds are automatically deleted.\n" ++
  "Builds are skipped if nothing has changed.\n" ++
  "<table>\n" ++
  "<tr><th>Date</th><th class=\"repo\">openslide</th>" ++
  "<th class=\"repo\">openslide-java</th><th class=\"repo\">openslide-winbuild</th>" ++
  "<th class=\"repo\">linux-builder</th><th class=\"repo\">winbuild-builder</th>" ++
  "<th></th><th colspan=\"3\">Downloads</th></tr>\n"

/-- The `revision_link` macro (lines 77-85): a compare link between the
previous and current commit when a truthy previous value exists, otherwise
the bare shortened commit. Jinja truthiness of `prev` equals `pyTruthy`. -/
def revision_link (repo : String) (prev : Option String) (cur : String) : String :=
  if pyTruthy prev then
    "<a href=\"https://github.com/openslide/" ++ repo ++ "/compare/" ++
      pyTake (prev.getD "") 8 ++ "..." ++ pyTake cur 8 ++ "\">" ++
      pyTake cur 8 ++ "</a>"
  else
    pyTake cur 8

/-- `builder.split('@')[1].split(':')[1][:8]` (line 88). -/
def builder_short (builder : String) : String :=
  pyTake (((pySplit ((pySplit builder '@').getD 1 "") ':').getD 1 "")) 8

/-- The `builder_link` macro (lines 87-96): link the shortened builder digest
to its container image page when the reference is a known key of
`container_images`, otherwise emit the bare shortened digest. -/
def builder_link (container_images : List (String × String)) (builder : String) : String :=
  match lookupDict container_images builder with
  | some url => "<a href=\"" ++ url ++ "\">" ++ builder_short builder ++ "</a>"
  | none => builder_short builder

/-- The download link cell texts (lines 128-144). -/
def downloadCells (pkgver : String) (win32 : Bool) : String :=
  "<td class=\"source\"><a href=\"https://github.com/openslide/builds/releases/download/windows-" ++
    pkgver ++ "/openslide-winbuild-" ++ pkgver ++ ".zip\">Source</a></td>" ++
  "<td class=\"win32\">" ++
    (if win32 then
      "<a href=\"https://github.com/openslide/builds/releases/download/windows-" ++
        pkgver ++ "/openslide-win32-" ++ pkgver ++ ".zip\">Windows 32-bit</a>"
     else "") ++ "</td>" ++
  "<td class=\"win64\"><a href=\"https://github.com/openslide/builds/releases/download/windows-" ++
    pkgver ++ "/openslide-win64-" ++ pkgver ++ ".zip\">Windows 64-bit</a></td>"

/-- One `<tr>` of the row loop (lines 109-146). -/
def rowHTML (container_images : List (String × String)) (row : Row) : String :=
  "<tr><td class=\"date\">" ++ row.date ++ "</td>" ++
  "<td class=\"revision\">" ++
    revision_link "openslide" row.openslide_prev row.openslide_cur ++ "</td>" ++
  "<td class=\"revision\">" ++
    revision_link "openslide-java" row.java_prev row.java_cur ++ "</td>" ++
  "<td class=\"revision\">" ++
    revision_link "openslide-winbuild" row.winbuild_prev row.winbuild_cur ++ "</td>" ++
  "<td class=\"revision\">" ++ builder_link container_images row.linux_builder ++ "</td>" ++
  "<td class=\"revision\">" ++ builder_link container_images row.windows_builder ++ "</td>" ++
  "<td class=\"spacer\"></td>" ++
  downloadCells row.pkgver row.win32 ++
  "</tr>\n"

/-- The template output for a given row sequence: prolog, one `<tr>` per row
in sequence order, closing tag. `main` passes `reversed(rows)` here. -/
def renderPage (container_images : List (String × String)) (retain : Nat)
    (rows : List Row) : String :=
  pageHeader retain ++ String.join (rows.map (rowHTML container_images)) ++ "</table>\n"

-- The whole procedure.

/-- The external world of one run: the date parser library, the two API
oracles, and the current time used for `last_update`. -/
structure Oracles where
  parseDate : String → String
  prune : PruneApi
  containers : ContainerApi
  now : Nat

/-- What a successful run writes: the HTML page text and the JSON state file
content (its `builds` list and `last_update` timestamp, lines 266-273). -/
structure MainResult where
  html : String
  jsonBuilds : List Record
  lastUpdate : Nat
deriving DecidableEq

/-- The body of `main` (lines 150-273) after argument parsing: load, append,
prune, truncate, fetch container metadata, render, persist. Returns the HTTP
requests issued (in order) and either the written outputs or the error that
aborted the run; on an error nothing is written. -/
def mainStep (o : Oracles) (file : FileRead) (args : Args) :
    List Request × Except ProgError MainResult :=
  let records := loadRecords file
  match appendStep o.parseDate args records with
  | .error e => ([], .error e)
  | .ok appended =>
    match pruneLoop o.prune (expiredOf appended) with
    | (plog, .error e) => (plog, .error e)
    | (plog, .ok _) =>
      let retained := retainedOf appended
      match containerStep o.containers CONTAINERS with
      | (clog, .error e) => (plog ++ clog, .error e)
      | (clog, .ok container_images) =>
        let rows := makeRows retained
        let html := renderPage container_images RETAIN rows.reverse ++ "\n"
        (plog ++ clog,
         .ok { html := html, jsonBuilds := retained, lastUpdate := o.now })

-- Concrete sample inputs used to exercise the definitions.

/-- Test predicate: is a request a release deletion. -/
def isDeleteReq : Request → Bool
  | .deleteRelease _ => true
  | _ => false

/-- A sample build record. -/
def sampleRec (n : Nat) : Record :=
  { pkgver := "20230101-" ++ toString n, date := "2023-01-01",
    linux_builder := "lb@sha256:aaaa", windows_builder := "wb@sha256:bbbb",
    openslide := "c1", openslide_java := "c2", openslide_winbuild := "c3" }

/-- A record list one longer than the retention limit, so that exactly one
record is expired. -/
def recs31 : List Record :=
  (List.range 31).map sampleRec

/-- A prune API where every lookup finds release 7 and deletion succeeds. -/
def okPruneApi : PruneApi :=
  { getRelease := fun _ => .found 7, deleteStatus := fun _ => 204 }

/-- A prune API where every release lookup answers status 404. -/
def api404 : PruneApi :=
  { getRelease := fun _ => .notFound, deleteStatus := fun _ => 204 }

/-- A prune API where every release lookup answers error status 500. -/
def api500 : PruneApi :=
  { getRelease := fun _ => .httpError 500, deleteStatus := fun _ => 204 }

/-- A container API answering success with no images. -/
def emptyContainers : ContainerApi :=
  { listVersions := fun _ _ => (200, []) }

/-- Sample oracles for a clean run. -/
def sampleOracles : Oracles :=
  { parseDate := fun s => s, prune := okPruneApi, containers := emptyContainers, now := 5 }

/-- An argument vector with no `--pkgver`. -/
def argsNone : Args :=
  ⟨none, none, none, none, none, none⟩

/-- A fully specified new-build argument vector. -/
def argsFull : Args :=
  ⟨some "20230101-1", some "lb@sha256:aaaa", some "wb@sha256:bbbb",
   some "c1", some "c2", some "c3"⟩

/-- An argument vector supplying `--pkgver` but no `--windows-builder`. -/
def argsPartial : Args :=
  ⟨some "20230101-1", some "lb@sha256:aaaa", none, some "c1", some "c2", some "c3"⟩

/-- The result of a clean sample run over `recs31` with no new build. -/
def sampleResult : MainResult :=
  ((mainStep sampleOracles (.present recs31) argsNone).2).toOption.getD ⟨"", [], 0⟩

/-- The record that `argsFull` appends under `sampleOracles`. -/
def fullRec : Record :=
  { pkgver := "20230101-1", date := "20230101", linux_builder := "lb@sha256:aaaa",
    windows_builder := "wb@sha256:bbbb", openslide := "c1", openslide_java := "c2",
    openslide_winbuild := "c3" }

/-- The result of a clean sample run over `recs31` appending a new build. -/
def sampleResultFull : MainResult :=
  ((mainStep sampleOracles (.present recs31) argsFull).2).toOption.getD ⟨"", [], 0⟩

-- Helper lemmas.

/-- A nonempty string is Python-truthy. -/
theorem pyTruthy_some_ne (v : String) (h : v ≠ "") : pyTruthy (some v) = true := by
  cases v with
  | mk data =>
    cases data with
    | nil => exact absurd rfl h
    | cons c cs => rfl

/-- Characterization of a successful run: the append step succeeded, the
persisted builds are the truncated post-append list, and the timestamp is
the oracle clock. -/
theorem mainStep_ok_spec (o : Oracles) (file : FileRead) (args : Args)
    (log : List Request) (res : MainResult)
    (h : mainStep o file args = (log, .ok res)) :
    ∃ appended,
      appendStep o.parseDate args (loadRecords file) = .ok appended ∧
      res.jsonBuilds = retainedOf appended ∧
      res.lastUpdate = o.now := by
  simp only [mainStep] at h
  cases happ : appendStep o.parseDate args (loadRecords file) with
  | error e => rw [happ] at h; simp at h
  | ok appended =>
    rw [happ] at h
    dsimp only at h
    refine ⟨appended, rfl, ?_⟩
    cases hp : pruneLoop o.prune (expiredOf appended) with
    | mk plog pres =>
      rw [hp] at h
      cases pres with
      | error e => simp at h
      | ok u =>
        cases hc : containerStep o.containers CONTAINERS with
        | mk clog cres =>
          rw [hc] at h
          dsimp only at h
          cases cres with
          | error e => simp at h
          | ok ci =>
            simp at h
            obtain ⟨-, hres⟩ := h
            rw [← hres]
            exact ⟨rfl, rfl⟩

/-- The pkgver column of the generated rows equals that of the records. -/
theorem makeRowsAux_map_pkgver (prev : Option Record) (recs : List Record) :
    (makeRowsAux prev recs).map Row.pkgver = recs.map Record.pkgver := by
  induction recs generalizing prev with
  | nil => rfl
  | cons r rest ih => simp [makeRowsAux, mkRow, ih]

/-- A prune loop in which no reached lookup answers a non-404 error status
and no deletion fails issues one lookup per record, plus one deletion per
record whose release was found, in record order, and finishes cleanly. -/
theorem pruneLoop_clean (api : PruneApi) (l : List Record)
    (h : ∀ r ∈ l, match api.getRelease (tagOf r) with
      | .notFound => True
      | .found id => isErrorStatus (api.deleteStatus id) = false
      | .httpError _ => False) :
    pruneLoop api l =
      (l.flatMap (fun r =>
        match api.getRelease (tagOf r) with
        | .notFound => [.getReleaseByTag (tagOf r)]
        | .found id => [.getReleaseByTag (tagOf r), .deleteRelease id]
        | .httpError _ => []), .ok ()) := by
  induction l with
  | nil => rfl
  | cons r rest ih =>
    have hr := h r (by simp)
    have hrest := fun x hx => h x (List.mem_cons_of_mem r hx)
    cases hg : api.getRelease (tagOf r) with
    | notFound => simp [pruneLoop, hg, ih hrest]
    | found id =>
      rw [hg] at hr
      simp [pruneLoop, hg, hr, ih hrest]
    | httpError c =>
      rw [hg] at hr
      exact absurd hr not_false

/-- C1: after the update step, the record list kept by the program and
written back to the JSON state file has length at most RETAIN = 30 and is a
suffix of the post-append list of exactly the most recent min(RETAIN, length)
entries. -/
theorem c1_retention (o : Oracles) (file : FileRead) (args : Args)
    (log : List Request) (res : MainResult) (appended : List Record)
    (happ : appendStep o.parseDate args (loadRecords file) = .ok appended)
    (h : mainStep o file args = (log, .ok res)) :
    res.jsonBuilds.length ≤ RETAIN ∧
    res.jsonBuilds <:+ appended ∧
    res.jsonBuilds.length = min RETAIN appended.length := by
  obtain ⟨a, ha, hb, -⟩ := mainStep_ok_spec o file args log res h
  rw [happ] at ha
  injection ha with ha
  subst ha
  rw [hb]
  refine ⟨?_, List.drop_suffix _ _, ?_⟩
  · simp only [retainedOf, List.length_drop]
    omega
  · simp only [retainedOf, List.length_drop, RETAIN]
    omega

/-- Witness for C1 at a concrete 31-record run with no new build. -/
theorem c1_retention_witness :
    sampleResult.jsonBuilds.length ≤ RETAIN ∧
    sampleResult.jsonBuilds <:+ recs31 ∧
    sampleResult.jsonBuilds.length = min RETAIN recs31.length :=
  c1_retention sampleOracles (.present recs31) argsNone
    (mainStep sampleOracles (.present recs31) argsNone).1 sampleResult recs31 rfl rfl

/-- C2: rendering is deterministic: two runs that compute their rows from
equal record lists and equal container image maps produce identical HTML. -/
theorem c2_render_deterministic (recs recs' : List Record)
    (ci ci' : List (String × String)) (h1 : recs = recs') (h2 : ci = ci') :
    renderPage ci RETAIN (makeRows recs).reverse =
      renderPage ci' RETAIN (makeRows recs').reverse := by
  subst h1
  subst h2
  rfl

/-- Witness for C2 at a concrete record list and image map. -/
theorem c2_render_deterministic_witness :
    renderPage [] RETAIN (makeRows [sampleRec 0]).reverse =
      renderPage [] RETAIN (makeRows [sampleRec 0]).reverse :=
  c2_render_deterministic [sampleRec 0] [sampleRec 0] [] [] rfl rfl

/-- C3: a missing JSON state file is treated as no prior records: the whole
run proceeds exactly as it would on a present file holding an empty record
list, rather than failing. -/
theorem c3_missing_treated_as_empty (o : Oracles) (args : Args) :
    mainStep o .missing args = mainStep o (.present []) args := rfl

/-- C4: with a truthy `--pkgver` and all five companion arguments truthy,
exactly one record carrying the given values and a date derived from the
package version is appended at the end; with `--pkgver` absent the list is
unchanged by this step. -/
theorem c4_append (pd : String → String) (args : Args) (records : List Record) :
    (∀ v, args.pkgver = some v → v ≠ "" →
      pyTruthy args.linux_builder = true → pyTruthy args.windows_builder = true →
      pyTruthy args.openslide = true → pyTruthy args.java = true →
      pyTruthy args.winbuild = true →
      appendStep pd args records = .ok (records ++ [{
        pkgver := v,
        date := pd ((pySplit v '-').getD 0 ""),
        linux_builder := args.linux_builder.getD "",
        windows_builder := args.windows_builder.getD "",
        openslide := args.openslide.getD "",
        openslide_java := args.java.getD "",
        openslide_winbuild := args.winbuild.getD "" }])) ∧
    (args.pkgver = none → appendStep pd args records = .ok records) := by
  constructor
  · intro v hv hv' h1 h2 h3 h4 h5
    simp [appendStep, hv, pyTruthy_some_ne v hv', h1, h2, h3, h4, h5]
  · intro hn
    simp [appendStep, hn, pyTruthy]

/-- Witness for C4: both branches at concrete argument vectors. -/
theorem c4_append_witness :
    appendStep id argsFull [] = .ok [{
      pkgver := "20230101-1",
      date := id ((pySplit "20230101-1" '-').getD 0 ""),
      linux_builder := "lb@sha256:aaaa",
      windows_builder := "wb@sha256:bbbb",
      openslide := "c1",
      openslide_java := "c2",
      openslide_winbuild := "c3" }] ∧
    appendStep id argsNone [sampleRec 0] = .ok [sampleRec 0] :=
  ⟨(c4_append id argsFull []).1 "20230101-1" rfl (by decide) rfl rfl rfl rfl rfl,
   (c4_append id argsNone [sampleRec 0]).2 rfl⟩

/-- C5 counterexample: with one expired record whose release lookup answers
404, the prune loop issues no delete request although the record is expired,
so a delete is not issued for every expired record. -/
theorem c5_counterexample :
    expiredOf recs31 ≠ [] ∧
    (pruneLoop api404 (expiredOf recs31)).2 = .ok () ∧
    (pruneLoop api404 (expiredOf recs31)).1.filter isDeleteReq = [] := by
  refine ⟨by decide, rfl, rfl⟩

/-- C5 amended: when no reached lookup answers a non-404 error status and no
deletion fails, the prune loop issues exactly one lookup per expired record
in order, and a delete exactly for each expired record whose release was
found (404 lookups are skipped); retained records trigger no request. -/
theorem c5_prune_amended (api : PruneApi) (recs : List Record)
    (h : ∀ r ∈ expiredOf recs, match api.getRelease (tagOf r) with
      | .notFound => True
      | .found id => isErrorStatus (api.deleteStatus id) = false
      | .httpError _ => False) :
    pruneLoop api (expiredOf recs) =
      ((expiredOf recs).flatMap (fun r =>
        match api.getRelease (tagOf r) with
        | .notFound => [.getReleaseByTag (tagOf r)]
        | .found id => [.getReleaseByTag (tagOf r), .deleteRelease id]
        | .httpError _ => []), .ok ()) :=
  pruneLoop_clean api (expiredOf recs) h

/-- Witness for the amended C5 at a concrete API where lookups succeed. -/
theorem c5_prune_amended_witness :
    pruneLoop okPruneApi (expiredOf recs31) =
      ((expiredOf recs31).flatMap (fun r =>
        match okPruneApi.getRelease (tagOf r) with
        | .notFound => [.getReleaseByTag (tagOf r)]
        | .found id => [.getReleaseByTag (tagOf r), .deleteRelease id]
        | .httpError _ => []), .ok ()) :=
  c5_prune_amended okPruneApi recs31 (by intro r hr; simp [okPruneApi, isErrorStatus])

/-- C6 counterexample: a 404 answered to the release lookup is an error
status that does not propagate: the loop recovers, issues nothing further
for that record, and finishes cleanly. -/
theorem c6_counterexample :
    (pruneLoop api404 (expiredOf recs31)).1 = [.getReleaseByTag (tagOf (sampleRec 0))] ∧
    (pruneLoop api404 (expiredOf recs31)).2 = .ok () :=
  ⟨rfl, rfl⟩

/-- C6 amended: every error status other than a 404 answered to the release
lookup propagates unrecovered: a non-404 lookup error aborts the prune loop,
a failed deletion aborts it, an error from the package-version listing aborts
the container fetch, and a prune error aborts the whole run with nothing
written. -/
theorem c6_error_propagation_amended :
    (∀ (api : PruneApi) (r : Record) (rest : List Record) (c : Nat),
      api.getRelease (tagOf r) = .httpError c →
      pruneLoop api (r :: rest) = ([.getReleaseByTag (tagOf r)], .error (.httpError c))) ∧
    (∀ (api : PruneApi) (r : Record) (rest : List Record) (id : Nat),
      api.getRelease (tagOf r) = .found id →
      isErrorStatus (api.deleteStatus id) = true →
      pruneLoop api (r :: rest) =
        ([.getReleaseByTag (tagOf r), .deleteRelease id],
         .error (.httpError (api.deleteStatus id)))) ∧
    (∀ (api : ContainerApi) (c : String) (cs : List String) (s : Nat)
        (imgs : List (String × String)),
      api.listVersions ((pySplit c '/').getD 0 "") ((pySplit c '/').getD 1 "") = (s, imgs) →
      isErrorStatus s = true →
      containerStep api (c :: cs) =
        ([.listPackageVersions ((pySplit c '/').getD 0 "") ((pySplit c '/').getD 1 "")],
         .error (.httpError s))) ∧
    (∀ (o : Oracles) (file : FileRead) (args : Args) (appended : List Record)
        (e : ProgError) (plog : List Request),
      appendStep o.parseDate args (loadRecords file) = .ok appended →
      pruneLoop o.prune (expiredOf appended) = (plog, .error e) →
      mainStep o file args = (plog, .error e)) := by
  refine ⟨?_, ?_, ?_, ?_⟩
  · intro api r rest c hg
    simp [pruneLoop, hg]
  · intro api r rest id hg hd
    simp [pruneLoop, hg, hd]
  · intro api c cs s imgs hl herr
    simp only [containerStep]
    rw [hl]
    simp [herr]
  · intro o file args appended e plog happ hp
    simp [mainStep, happ, hp]

/-- Witness for the amended C6: a 500 on the first lookup aborts the loop. -/
theorem c6_error_propagation_amended_witness :
    pruneLoop api500 (sampleRec 0 :: []) =
      ([.getReleaseByTag (tagOf (sampleRec 0))], .error (.httpError 500)) :=
  c6_error_propagation_amended.1 api500 (sampleRec 0) [] 500 rfl

/-- C7: loading preserves the stored order, the append step either leaves
the list unchanged or appends one record at the end, and truncation keeps a
suffix, so surviving records keep their append order. -/
theorem c7_order_preserved :
    (∀ l : List Record, loadRecords (.present l) = l) ∧
    (∀ (pd : String → String) (args : Args) (recs recs' : List Record),
      appendStep pd args recs = .ok recs' →
      recs' = recs ∨ ∃ r, recs' = recs ++ [r]) ∧
    (∀ l : List Record, retainedOf l <:+ l) := by
  refine ⟨fun l => rfl, ?_, fun l => List.drop_suffix _ _⟩
  intro pd args recs recs' h
  unfold appendStep at h
  split at h
  · split at h
    · simp at h
    · right
      exact ⟨_, (Except.ok.inj h).symm⟩
  · left
    exact (Except.ok.inj h).symm

/-- Witness for C7 at a concrete append step with no new build. -/
theorem c7_order_preserved_witness :
    [sampleRec 0] = [sampleRec 0] ∨ ∃ r, [sampleRec 0] = [sampleRec 0] ++ [r] :=
  c7_order_preserved.2.1 id argsNone [sampleRec 0] [sampleRec 0] rfl

/-- C8: on a successful run, the persisted JSON `builds` list is exactly the
truncation of the post-append list (so it reflects the append and prune steps
that preceded rendering), and `last_update` is the run timestamp. -/
theorem c8_persisted_builds (o : Oracles) (file : FileRead) (args : Args)
    (log : List Request) (res : MainResult) (appended : List Record)
    (happ : appendStep o.parseDate args (loadRecords file) = .ok appended)
    (h : mainStep o file args = (log, .ok res)) :
    res.jsonBuilds = retainedOf appended ∧ res.lastUpdate = o.now := by
  obtain ⟨a, ha, hb, hc⟩ := mainStep_ok_spec o file args log res h
  rw [happ] at ha
  injection ha with ha
  subst ha
  exact ⟨hb, hc⟩

/-- Witness for C8 at a concrete run that appends a new record to 31 loaded
records. -/
theorem c8_persisted_builds_witness :
    sampleResultFull.jsonBuilds = retainedOf (recs31 ++ [fullRec]) ∧
    sampleResultFull.lastUpdate = sampleOracles.now :=
  c8_persisted_builds sampleOracles (.present recs31) argsFull
    (mainStep sampleOracles (.present recs31) argsFull).1 sampleResultFull
    (recs31 ++ [fullRec]) rfl rfl

/-- C9: a truthy `--pkgver` with any companion argument absent or empty
aborts with the argument error before any record is appended, any remote
request is issued (empty request log), or anything is written. -/
theorem c9_arg_error (o : Oracles) (file : FileRead) (args : Args) (v : String)
    (hv : args.pkgver = some v) (hv' : v ≠ "")
    (hmiss : pyTruthy args.linux_builder = false ∨ pyTruthy args.windows_builder = false ∨
      pyTruthy args.openslide = false ∨ pyTruthy args.java = false ∨
      pyTruthy args.winbuild = false) :
    mainStep o file args = ([], .error .argError) := by
  have happ : appendStep o.parseDate args (loadRecords file) = .error .argError := by
    rcases hmiss with h | h | h | h | h <;>
      simp [appendStep, hv, pyTruthy_some_ne v hv', h]
  simp [mainStep, happ]

/-- Witness for C9: `--pkgver` given but `--windows-builder` missing. -/
theorem c9_arg_error_witness :
    mainStep sampleOracles (.present recs31) argsPartial = ([], .error .argError) :=
  c9_arg_error sampleOracles (.present recs31) argsPartial "20230101-1" rfl (by decide)
    (Or.inr (Or.inl rfl))

/-- C10: the template receives the rows reversed, so the rendered table rows
are exactly the reversal of the row sequence built from the stored records,
whose pkgver column matches the records in stored order: newest build
first. -/
theorem c10_rows_reversed (ci : List (String × String)) (retain : Nat)
    (recs : List Record) :
    renderPage ci retain (makeRows recs).reverse =
      pageHeader retain ++
        String.join (((makeRows recs).map (rowHTML ci)).reverse) ++ "</table>\n" ∧
    (makeRows recs).map Row.pkgver = recs.map Record.pkgver := by
  constructor
  · simp [renderPage, List.map_reverse]
  · exact makeRowsAux_map_pkgver none recs
